import Mathlib

/-!
Verification of the risk/suitability scoring engine of the hazard-maps
repository (`hazard_maps/views.py`, `hazard_maps/overpass_client.py`,
`hazard_maps/utils.py`) against its natural-language specification.

Python floats are modelled as exact rationals (`ℚ`); the distance engine,
which composes real trigonometric functions, is modelled over `ℝ`.
`round(x, 1)` is modelled as rounding to the nearest tenth (ties to the
upper value); no claim checked here depends on the tie-breaking rule.
HTML detail strings and display-formatting helpers (`format_distance`,
`format_duration`) are not modelled: no claim mentions them.
-/

namespace HazardMaps

/-- Hazard susceptibility level.  Python passes `None` or one of the strings
`'LS' | 'MS' | 'HS' | 'VHS' | 'DF'`; `nodata` models Python `None`. -/
inductive HLevel where
  | nodata | LS | MS | HS | VHS | DF
deriving DecidableEq, Repr, Fintype

/-- Python truthiness of a hazard level (`if flood_level:`):
`None` is falsy, every non-empty level string is truthy. -/
def HLevel.present (l : HLevel) : Prop := l ≠ HLevel.nodata

instance : DecidablePred HLevel.present := fun l =>
  inferInstanceAs (Decidable (l ≠ HLevel.nodata))

/-- Valid flood levels (`None, LS, MS, HS, VHS`; no `DF`). -/
def validFlood (l : HLevel) : Prop := l ≠ HLevel.DF

/-- Valid liquefaction levels (`None, LS, MS, HS`; no `VHS`/`DF`). -/
def validLiq (l : HLevel) : Prop := l ≠ HLevel.VHS ∧ l ≠ HLevel.DF

instance : DecidablePred validFlood := fun l =>
  inferInstanceAs (Decidable (l ≠ HLevel.DF))

instance : DecidablePred validLiq := fun _ => instDecidableAnd

/-- The ordinal rank of flood severity used by the spec:
`None < LS < MS < HS < VHS` (DF is not a flood level; rank it last). -/
def floodRank : HLevel → ℕ
  | .nodata => 0
  | .LS => 1
  | .MS => 2
  | .HS => 3
  | .VHS => 4
  | .DF => 5

/-- Python `round(x, 1)`: round to the nearest tenth. -/
def round1 {α : Type*} [LinearOrderedField α] [FloorRing α] (x : α) : α :=
  ((round (10 * x) : ℤ) : α) / 10

/-- Python `round(x, 2)`: round to the nearest hundredth. -/
def round2 {α : Type*} [LinearOrderedField α] [FloorRing α] (x : α) : α :=
  ((round (100 * x) : ℤ) : α) / 100

/-- Model of `SEVERITY_SCORES` dict of `calculate_risk_score`, read through
`.get(level, 0)`: `None→0, LS→20, MS→40, HS→70, VHS→100`; any key not in the
dict (in particular `DF`) defaults to 0. -/
def SEVERITY_SCORES : HLevel → ℚ
  | .nodata => 0
  | .LS => 20
  | .MS => 40
  | .HS => 70
  | .VHS => 100
  | .DF => 0

/-- Accumulated `total_weight` of `calculate_risk_score`: each hazard
contributes its weight only when its level is truthy. -/
def riskTotalWeight (f l q : HLevel) : ℚ :=
  (if f ≠ HLevel.nodata then 0.6 else 0)
    + (if l ≠ HLevel.nodata then 0.25 else 0)
    + (if q ≠ HLevel.nodata then 0.15 else 0)

/-- Accumulated `weighted_score` of `calculate_risk_score`. -/
def riskWeightedScore (f l q : HLevel) : ℚ :=
  (if f ≠ HLevel.nodata then SEVERITY_SCORES f * 0.6 else 0)
    + (if l ≠ HLevel.nodata then SEVERITY_SCORES l * 0.25 else 0)
    + (if q ≠ HLevel.nodata then SEVERITY_SCORES q * 0.15 else 0)

/-- Model of `final_score` before the combined-hazard penalty: normalized weighted
score when some hazard is present, else 0. -/
def riskBaseScore (f l q : HLevel) : ℚ :=
  if 0 < riskTotalWeight f l q then riskWeightedScore f l q / riskTotalWeight f l q
  else 0

/-- Model of `high_hazards_count`: flood at `HS`/`VHS`, landslide at `HS`/`VHS`,
liquefaction at `HS`. -/
def highHazardsCount (f l q : HLevel) : ℕ :=
  (if f = HLevel.HS ∨ f = HLevel.VHS then 1 else 0)
    + (if l = HLevel.HS ∨ l = HLevel.VHS then 1 else 0)
    + (if q = HLevel.HS then 1 else 0)

/-- Model of `final_score` after the combined-hazard penalty: `min(100, 1.25·s)` when
at least two hazards are at high severity. -/
def riskFinalScore (f l q : HLevel) : ℚ :=
  if 2 ≤ highHazardsCount f l q then min 100 (riskBaseScore f l q * 1.25)
  else riskBaseScore f l q

/-- The fixed category/message/color/icon/safety-level band chosen from the
final score. -/
structure RiskBand where
  category : String
  message : String
  color : String
  icon : String
  safety_level : String
deriving Repr, DecidableEq

/-- Risk categorization bands of `calculate_risk_score`. -/
def riskBand (s : ℚ) : RiskBand :=
  if s < 25 then
    ⟨"LOW RISK", "Suitable for development with standard precautions",
      "#10b981", "✅", "SAFE"⟩
  else if s < 50 then
    ⟨"MODERATE RISK", "Development acceptable with engineering controls",
      "#f59e0b", "⚠️", "CAUTION"⟩
  else if s < 75 then
    ⟨"HIGH RISK", "Significant mitigation required - consult engineers",
      "#f97316", "⚠️", "WARNING"⟩
  else
    ⟨"VERY HIGH RISK", "Development strongly discouraged - relocation recommended",
      "#ef4444", "🚫", "DANGER"⟩

/-- The `rec_summary_parts` list built by `generate_smart_recommendations`
(one label per high-risk hazard, in flood/landslide/liquefaction order). -/
def recSummaryParts (f l q : HLevel) : List String :=
  (if f = HLevel.HS ∨ f = HLevel.VHS then
    [if f = HLevel.VHS then "VERY HIGH FLOOD RISK" else "HIGH FLOOD RISK"] else [])
  ++ (if l = HLevel.HS ∨ l = HLevel.VHS ∨ l = HLevel.DF then
    [if l = HLevel.DF then "DEBRIS FLOW ZONE"
     else if l = HLevel.VHS then "VERY HIGH LANDSLIDE RISK"
     else "HIGH LANDSLIDE RISK"] else [])
  ++ (if q = HLevel.HS then ["HIGH LIQUEFACTION RISK"] else [])

/-- Model of `summary` string of `generate_smart_recommendations`
(the HTML `details` text is not modelled). -/
def generate_smart_recommendations_summary (f l q : HLevel) : String :=
  if (f = HLevel.HS ∨ f = HLevel.VHS) ∨ (l = HLevel.HS ∨ l = HLevel.VHS ∨ l = HLevel.DF)
      ∨ q = HLevel.HS then
    String.intercalate " + " (recSummaryParts f l q)
  else if f = HLevel.MS ∨ l = HLevel.MS ∨ q = HLevel.MS then
    "Standard building codes with enhanced precautions"
  else
    "Low risk - Standard construction practices"

/-- Model of `RiskAssessment` dict returned by `calculate_risk_score`
(HTML `recommendation_details` is not modelled). -/
structure RiskAssessment where
  score : ℚ
  raw_score : ℚ
  category : String
  message : String
  color : String
  icon : String
  safety_level : String
  recommendation_summary : String
deriving Repr, DecidableEq

/-- Model of `calculate_risk_score(flood_level, landslide_level, liquefaction_level)`
(`hazard_maps/views.py`): debris-flow override, then dynamic 0.6/0.25/0.15
weighting, combined-hazard penalty and banding. -/
def calculate_risk_score (f l q : HLevel) : RiskAssessment :=
  if l = HLevel.DF then
    { score := 100
      raw_score := 100
      category := "CRITICAL - DEBRIS FLOW ZONE"
      message := "⛔ NO-BUILD ZONE - Construction prohibited by PHIVOLCS"
      color := "#7f1d1d"
      icon := "🚫"
      safety_level := "EVACUATION REQUIRED"
      recommendation_summary := "DEBRIS FLOW ZONE - No Construction Allowed" }
  else
    let final := riskFinalScore f l q
    let band := riskBand final
    { score := round1 (min final 100)
      raw_score := round1 final
      category := band.category
      message := band.message
      color := band.color
      icon := band.icon
      safety_level := band.safety_level
      recommendation_summary := generate_smart_recommendations_summary f l q }

/-- Nearest-facility record produced by `build_facility_summary`
(`name`, `distance_meters`, `is_walkable`; the display strings `distance`
and `duration` are not modelled). -/
structure FacilityRef (α : Type*) where
  name : String
  distance_meters : α
  is_walkable : Prop

/-- The `counts` dict of the facility result. -/
structure FacilityCounts where
  evacuation : ℕ
  medical : ℕ
  emergency_services : ℕ
  essential : ℕ
  other : ℕ
  total : ℕ
deriving Repr, DecidableEq

/-- The facility aggregate handed to `calculate_suitability_score`:
`summary` (nearest of each critical type) plus `counts`. -/
structure NearbyFacilities (α : Type*) where
  nearest_evacuation : Option (FacilityRef α)
  nearest_hospital : Option (FacilityRef α)
  nearest_fire_station : Option (FacilityRef α)
  counts : FacilityCounts

/-- Model of `SuitabilityAssessment` dict returned by `calculate_suitability_score`,
with the `breakdown` sub-dict flattened into fields. -/
structure SuitabilityAssessment where
  score : ℚ
  category : String
  color : String
  recommendation : String
  safety : ℚ
  safety_description : String
  accessibility : ℚ
  accessibility_description : String
  infrastructure : ℚ
  infrastructure_description : String

/-- Evacuation-center proximity sub-score of `calculate_suitability_score`:
`max(0, min(100, 100 - ((km - 0.5) / 4.5) * 100))`. -/
def evacProximityScore (distance_meters : ℚ) : ℚ :=
  max 0 (min 100 (100 - ((distance_meters / 1000 - 0.5) / 4.5) * 100))

/-- Hospital proximity sub-score of `calculate_suitability_score`:
`max(0, min(100, 100 - ((km - 1) / 9) * 100))`. -/
def hospProximityScore (distance_meters : ℚ) : ℚ :=
  max 0 (min 100 (100 - ((distance_meters / 1000 - 1) / 9) * 100))

/-- Model of `accessibility_score` accumulator: each proximity sub-score contributes
`· * 0.5`, and only when the corresponding nearest facility exists. -/
def accessibilityScore (nf : NearbyFacilities ℚ) : ℚ :=
  (match nf.nearest_evacuation with
    | some e => evacProximityScore e.distance_meters * 0.5
    | none => 0)
  + (match nf.nearest_hospital with
    | some h => hospProximityScore h.distance_meters * 0.5
    | none => 0)

/-- Model of `infrastructure_score` accumulator: banded points per facility-count
category (evacuation ≥3→25/≥1→15, medical ≥2→25/≥1→15,
emergency ≥2→25/≥1→15, essential ≥5→25/≥2→15). -/
def infrastructureScore (c : FacilityCounts) : ℚ :=
  (if 3 ≤ c.evacuation then 25 else if 1 ≤ c.evacuation then 15 else 0)
    + (if 2 ≤ c.medical then 25 else if 1 ≤ c.medical then 15 else 0)
    + (if 2 ≤ c.emergency_services then 25 else if 1 ≤ c.emergency_services then 15 else 0)
    + (if 5 ≤ c.essential then 25 else if 2 ≤ c.essential then 15 else 0)

/-- Model of `calculate_suitability_score(lat, lng, hazard_data, nearby_facilities)`
(`hazard_maps/views.py`).  `lat`/`lng` are unused by the body and the only
parts of `hazard_data` read are `overall_risk.score` and
`overall_risk.safety_level`, so the model takes the `RiskAssessment`
directly. -/
def calculate_suitability_score (risk : RiskAssessment) (nf : NearbyFacilities ℚ) :
    SuitabilityAssessment :=
  let hazard_score := risk.score
  if risk.safety_level = "EVACUATION REQUIRED" then
    { score := 0
      category := "NOT SUITABLE"
      color := "#7f1d1d"
      recommendation := "⛔ Debris Flow Zone - Construction Prohibited by PHIVOLCS"
      safety := 0
      safety_description := "Critical hazard zone - no construction allowed"
      accessibility := 0
      accessibility_description := "Not applicable - area is prohibited for development"
      infrastructure := 0
      infrastructure_description := "Not applicable - area is prohibited for development" }
  else
    let safety_score := (100 - hazard_score) * 0.6
    let safety_desc :=
      if 75 ≤ hazard_score then "Very high disaster risk - extensive mitigation required"
      else if 50 ≤ hazard_score then "High disaster risk - significant engineering controls needed"
      else if 25 ≤ hazard_score then "Moderate disaster risk - standard precautions sufficient"
      else "Low disaster risk - safe for development"
    let accessibility_score := accessibilityScore nf
    let accessibility_component := accessibility_score * 0.2
    let access_desc :=
      if 75 ≤ accessibility_score then
        "Excellent access - hospitals and evacuation centers within walking distance or very close by for emergency response"
      else if 50 ≤ accessibility_score then
        "Good access - hospitals and evacuation centers reachable within 10-15 minutes by vehicle"
      else if 25 ≤ accessibility_score then
        "Moderate access - hospitals and evacuation centers 15-30 minutes away by vehicle"
      else
        "Poor access - hospitals and evacuation centers far away (30+ minutes), emergency response difficult"
    let evac_count := nf.counts.evacuation
    let medical_count := nf.counts.medical
    let essential_count := nf.counts.essential
    let infrastructure_score := infrastructureScore nf.counts
    let infrastructure_component := min 100 infrastructure_score * 0.2
    let total_facilities := nf.counts.total
    let infra_desc :=
      if 15 ≤ total_facilities then
        s!"Well-developed area with {medical_count} medical facilities, {evac_count} evacuation centers, and {essential_count} essential services nearby"
      else if 8 ≤ total_facilities then
        s!"Adequate development with {medical_count} medical facilities, {evac_count} evacuation centers, and {essential_count} essential services within 3km"
      else if 3 ≤ total_facilities then
        s!"Basic development - {total_facilities} facilities nearby including {medical_count} medical and {evac_count} evacuation centers"
      else
        s!"Underdeveloped area - very limited facilities ({total_facilities} total) within 3km"
    let total0 := safety_score + accessibility_component + infrastructure_component
    let total_suitability := if 75 ≤ hazard_score then total0 * 0.8 else total0
    let (category, color, recommendation) :=
      if 70 ≤ total_suitability then
        ("HIGHLY SUITABLE", "#10b981",
          "Excellent location for development. Low disaster risk with good infrastructure and accessibility.")
      else if 50 ≤ total_suitability then
        ("MODERATELY SUITABLE", "#f59e0b",
          "Acceptable for development with proper planning and standard precautions. Some disaster risk present.")
      else if 30 ≤ total_suitability then
        ("MARGINALLY SUITABLE", "#f97316",
          "Development possible but challenging. High disaster risk requires extensive mitigation.")
      else
        ("NOT SUITABLE", "#ef4444",
          "Not recommended for development. Very high disaster risk and/or inadequate infrastructure.")
    { score := round1 total_suitability
      category := category
      color := color
      recommendation := recommendation
      safety := round1 safety_score
      safety_description := safety_desc
      accessibility := round1 accessibility_component
      accessibility_description := access_desc
      infrastructure := round1 infrastructure_component
      infrastructure_description := infra_desc }

/-- A facility dict as produced by `OverpassClient._parse_element`, before
the views annotate it with distance fields.  The numeric type `α` abstracts
Python floats (`ℚ` for decidable evaluation, `ℝ` for the haversine wiring). -/
structure RawFacility (α : Type*) where
  osm_id : ℕ
  name : String
  facility_type : String
  type_display : String
  category : String
  subcategory : String
  priority : ℕ
  lat : α
  lng : α

/-- A facility dict after the distance-annotation loop of
`get_nearby_facilities` (display strings are not modelled). -/
structure Facility (α : Type*) extends RawFacility α where
  distance_meters : α
  distance_km : α
  is_walkable : Prop
  duration_minutes : α
  method : String

section Pipeline

variable {α : Type*} [LinearOrderedField α] [FloorRing α]

/-- One iteration of the distance-annotation loop of
`get_nearby_facilities` / `get_nearby_facilities_for_suitability`, given the
already-computed distance `d` for this facility: sets `distance_meters`,
`distance_km`, `is_walkable := d ≤ 500`,
`duration_minutes := round((d/1000)/40*60, 1)` (40 km/h estimate) and
`method := 'straight_line'`. -/
def annotateFacility (d : α) (f : RawFacility α) : Facility α :=
  { f with
    distance_meters := d
    distance_km := round2 (d / 1000)
    is_walkable := d ≤ 500
    duration_minutes := round1 (d / 1000 / 40 * 60)
    method := "straight_line" }

/-- Stable insertion into a distance-sorted list (the earlier element stays
in front of later elements at the same distance). -/
def insertByDistance (x : Facility α) : List (Facility α) → List (Facility α)
  | [] => [x]
  | y :: ys =>
    if x.distance_meters ≤ y.distance_meters then x :: y :: ys
    else y :: insertByDistance x ys

/-- Python `facilities.sort(key=lambda x: x.get('distance_meters', 999999))`:
a stable ascending sort by `distance_meters` (every annotated facility has
the key, so the default is irrelevant), modelled as stable insertion sort. -/
def sortByDistance : List (Facility α) → List (Facility α)
  | [] => []
  | x :: xs => insertByDistance x (sortByDistance xs)

/-- The five disaster-priority groups built by `get_nearby_facilities`. -/
inductive Subcat where
  | evacuation | medical | emergency_services | essential | other
deriving DecidableEq, Repr, Fintype

/-- Group label string written back into the facility's `subcategory`. -/
def Subcat.label : Subcat → String
  | .evacuation => "evacuation"
  | .medical => "medical"
  | .emergency_services => "emergency_services"
  | .essential => "essential"
  | .other => "other"

/-- The categorization if/elif chain of the grouping loop, first match wins:
evacuation, then medical, then emergency services, then essential, else
other.  Each rule fires on the pre-assigned `subcategory` or on the raw
`facility_type`. -/
def facilityCat (f : Facility α) : Subcat :=
  if f.subcategory = "evacuation" ∨ f.facility_type ∈
      (["school", "community_centre", "kindergarten", "college", "university"] : List String) then
    .evacuation
  else if f.subcategory = "medical" ∨ f.facility_type ∈
      (["hospital", "clinic", "doctors", "pharmacy"] : List String) then
    .medical
  else if f.subcategory = "emergency_services" ∨ f.facility_type ∈
      (["fire_station", "police"] : List String) then
    .emergency_services
  else if f.subcategory = "essential" ∨ f.facility_type ∈
      (["marketplace", "supermarket", "convenience", "bank", "fuel",
        "restaurant", "fast_food", "cafe", "mall", "atm", "department_store"] : List String) then
    .essential
  else
    .other

/-- Model of `f['subcategory'] = <group label>` performed when a facility is placed
in its group. -/
def assignSubcat (f : Facility α) : Facility α :=
  { f with subcategory := (facilityCat f).label }

/-- The five group lists, in the loop's variable names. -/
structure FacilityGroups (α : Type*) where
  evacuation_centers : List (Facility α)
  medical : List (Facility α)
  emergency_services : List (Facility α)
  essential_services : List (Facility α)
  other_facilities : List (Facility α)

/-- The grouping loop of `get_nearby_facilities`: each facility is appended
to the group selected by `facilityCat` (its `subcategory` updated to the
group label), preserving list order. -/
def partitionFacilities : List (Facility α) → FacilityGroups α
  | [] => ⟨[], [], [], [], []⟩
  | f :: rest =>
    let g := partitionFacilities rest
    match facilityCat f with
    | .evacuation => { g with evacuation_centers := assignSubcat f :: g.evacuation_centers }
    | .medical => { g with medical := assignSubcat f :: g.medical }
    | .emergency_services =>
        { g with emergency_services := assignSubcat f :: g.emergency_services }
    | .essential => { g with essential_services := assignSubcat f :: g.essential_services }
    | .other => { g with other_facilities := assignSubcat f :: g.other_facilities }

/-- Model of `build_facility_summary` helper (display strings not modelled). -/
def build_facility_summary (f : Facility α) : FacilityRef α :=
  { name := f.name
    distance_meters := f.distance_meters
    is_walkable := f.is_walkable }

/-- The `summary` + `counts` part of the facility result: nearest evacuation
center and hospital are the heads of their groups, nearest fire station is
the first emergency-services entry whose `facility_type` is exactly
`'fire_station'`; counts are the full group sizes and `total` the input
size. -/
def facilitiesSummary (total : ℕ) (g : FacilityGroups α) : NearbyFacilities α :=
  { nearest_evacuation := g.evacuation_centers.head?.map build_facility_summary
    nearest_hospital := g.medical.head?.map build_facility_summary
    nearest_fire_station :=
      (g.emergency_services.find? (fun f => f.facility_type == "fire_station")).map
        build_facility_summary
    counts :=
      { evacuation := g.evacuation_centers.length
        medical := g.medical.length
        emergency_services := g.emergency_services.length
        essential := g.essential_services.length
        other := g.other_facilities.length
        total := total } }

/-- Sort, group and summarize a list of annotated facilities — the shared
tail of `get_nearby_facilities` and `get_nearby_facilities_for_suitability`. -/
def facilitiesPipeline (l : List (Facility α)) : FacilityGroups α × NearbyFacilities α :=
  let sorted := sortByDistance l
  let g := partitionFacilities sorted
  (g, facilitiesSummary l.length g)

end Pipeline

/-- Model of `calculate_haversine_distance` (`hazard_maps/utils.py`): great-circle
distance with Earth radius 6 371 000 m;
`math.radians(x) = x·π/180`, `math.asin = arcsin`. -/
noncomputable def calculate_haversine_distance (lat1 lng1 lat2 lng2 : ℝ) : ℝ :=
  let rlat1 := lat1 * Real.pi / 180
  let rlng1 := lng1 * Real.pi / 180
  let rlat2 := lat2 * Real.pi / 180
  let rlng2 := lng2 * Real.pi / 180
  let dlat := rlat2 - rlat1
  let dlng := rlng2 - rlng1
  let a := Real.sin (dlat / 2) ^ 2 + Real.cos rlat1 * Real.cos rlat2 * Real.sin (dlng / 2) ^ 2
  let c := 2 * Real.arcsin (Real.sqrt a)
  c * 6371000

/-- The distance-annotation loop of `get_nearby_facilities` (and, verbatim,
of `get_nearby_facilities_for_suitability`): every facility's distance is
the haversine distance from the query point. -/
noncomputable def annotateFacilities (lat lng : ℝ) (facilities : List (RawFacility ℝ)) :
    List (Facility ℝ) :=
  facilities.map (fun f => annotateFacility (calculate_haversine_distance lat lng f.lat f.lng) f)

/-- Model of `get_nearby_facilities` (`hazard_maps/views.py`), from the list of raw
facilities returned by the Overpass client: annotate with straight-line
distances, sort, group, summarize. -/
noncomputable def get_nearby_facilities (lat lng : ℝ) (facilities : List (RawFacility ℝ)) :
    FacilityGroups ℝ × NearbyFacilities ℝ :=
  facilitiesPipeline (annotateFacilities lat lng facilities)

/-- Model of `get_nearby_facilities_for_suitability` (`hazard_maps/views.py`): same
annotation and grouping, returning only `summary` + `counts`. -/
noncomputable def get_nearby_facilities_for_suitability (lat lng : ℝ)
    (facilities : List (RawFacility ℝ)) : NearbyFacilities ℝ :=
  (facilitiesPipeline (annotateFacilities lat lng facilities)).2

/-- Value of the static type-mapping tables of `OverpassClient`:
`{category, name (display), priority, subcat}`. -/
structure FacilityInfo where
  category : String
  name : String
  priority : ℕ
  subcat : String
deriving Repr, DecidableEq

/-- Model of `OverpassClient.AMENITY_MAPPING`. -/
def AMENITY_MAPPING : List (String × FacilityInfo) :=
  [("hospital", ⟨"emergency", "Hospital", 1, "medical"⟩),
   ("clinic", ⟨"emergency", "Clinic", 1, "medical"⟩),
   ("doctors", ⟨"emergency", "Medical Clinic", 1, "medical"⟩),
   ("pharmacy", ⟨"emergency", "Pharmacy", 3, "essential"⟩),
   ("fire_station", ⟨"emergency", "Fire Station", 1, "emergency_services"⟩),
   ("police", ⟨"emergency", "Police Station", 1, "emergency_services"⟩),
   ("school", ⟨"everyday", "School", 1, "evacuation"⟩),
   ("kindergarten", ⟨"everyday", "Kindergarten", 2, "evacuation"⟩),
   ("college", ⟨"everyday", "College", 1, "evacuation"⟩),
   ("university", ⟨"everyday", "University", 1, "evacuation"⟩),
   ("community_centre", ⟨"government", "Community Center", 1, "evacuation"⟩),
   ("marketplace", ⟨"everyday", "Market", 3, "essential"⟩),
   ("bank", ⟨"everyday", "Bank", 3, "essential"⟩),
   ("atm", ⟨"everyday", "ATM", 4, "essential"⟩),
   ("fuel", ⟨"everyday", "Gas Station", 3, "essential"⟩),
   ("restaurant", ⟨"everyday", "Restaurant", 4, "essential"⟩),
   ("fast_food", ⟨"everyday", "Fast Food", 4, "essential"⟩),
   ("cafe", ⟨"everyday", "Cafe", 4, "essential"⟩),
   ("post_office", ⟨"government", "Post Office", 3, "essential"⟩),
   ("ferry_terminal", ⟨"everyday", "Ferry Terminal", 3, "essential"⟩),
   ("townhall", ⟨"government", "Town/Municipal Hall", 2, "government"⟩),
   ("public_building", ⟨"government", "Public Building", 3, "government"⟩)]

/-- Model of `OverpassClient.SHOP_MAPPING`. -/
def SHOP_MAPPING : List (String × FacilityInfo) :=
  [("supermarket", ⟨"everyday", "Supermarket", 3, "essential"⟩),
   ("convenience", ⟨"everyday", "Convenience Store", 3, "essential"⟩),
   ("mall", ⟨"everyday", "Shopping Mall", 3, "essential"⟩),
   ("department_store", ⟨"everyday", "Department Store", 3, "essential"⟩)]

/-- Model of `OverpassClient.OFFICE_MAPPING`. -/
def OFFICE_MAPPING : List (String × FacilityInfo) :=
  [("government", ⟨"government", "Government Office", 3, "government"⟩)]

/-- A raw OSM element as consumed by `_parse_element`: the `type`/`id`
fields, optional coordinates (own or way/relation `center`), and the tag
dict as an association list. -/
structure OsmElement where
  osm_type : String
  osm_id : ℕ
  lat : Option ℚ
  lon : Option ℚ
  center_lat : Option ℚ
  center_lon : Option ℚ
  tags : List (String × String)
deriving Repr, DecidableEq

/-- Model of `tags.get(key)`. -/
def tagsGet (tags : List (String × String)) (key : String) : Option String :=
  tags.lookup key

/-- The amenity/shop/office elif chain of `_parse_element`: if an `amenity`
tag exists it alone is consulted (against `AMENITY_MAPPING`), else a `shop`
tag against `SHOP_MAPPING`, else an `office` tag against `OFFICE_MAPPING`.
Returns the matched `facility_type` and its table entry; `none` when the
consulted table has no entry (the element is dropped: `category` /
`type_display` stay unset) or no tag of the three kinds exists. -/
def lookupFacilityInfo (tags : List (String × String)) : Option (String × FacilityInfo) :=
  match tagsGet tags "amenity" with
  | some a => (AMENITY_MAPPING.lookup a).map (fun i => (a, i))
  | none =>
    match tagsGet tags "shop" with
    | some s => (SHOP_MAPPING.lookup s).map (fun i => (s, i))
    | none =>
      match tagsGet tags "office" with
      | some o => (OFFICE_MAPPING.lookup o).map (fun i => (o, i))
      | none => none

/-- Model of `tags.get('name') or tags.get('name:en') or f"Unnamed {type_display}"`:
first truthy (non-empty) name, else the placeholder. -/
def facilityName (tags : List (String × String)) (type_display : String) : String :=
  match tagsGet tags "name" with
  | some n =>
    if n ≠ "" then n
    else match tagsGet tags "name:en" with
      | some e => if e ≠ "" then e else "Unnamed " ++ type_display
      | none => "Unnamed " ++ type_display
  | none =>
    match tagsGet tags "name:en" with
    | some e => if e ≠ "" then e else "Unnamed " ++ type_display
    | none => "Unnamed " ++ type_display

/-- Model of `OverpassClient._parse_element` (`hazard_maps/overpass_client.py`):
coordinates from the node itself or the way/relation `center` (other types
dropped); Python-falsy coordinates (`None` or `0.0`) dropped; then the
elif chain over the static tables — an element whose consulted table has no
entry is dropped, whatever its name.  All table entries carry a non-empty
`subcat`, so the `subcategory = subcategory or 'other'` backstop is the
identity here. -/
def _parse_element (el : OsmElement) : Option (RawFacility ℚ) :=
  let coords : Option (Option ℚ × Option ℚ) :=
    if el.osm_type = "node" then some (el.lat, el.lon)
    else if el.osm_type = "way" ∨ el.osm_type = "relation" then
      some (el.center_lat, el.center_lon)
    else none
  match coords with
  | none => none
  | some (lat?, lng?) =>
    match lat?, lng? with
    | some lat, some lng =>
      if lat = 0 ∨ lng = 0 then none
      else
        match lookupFacilityInfo el.tags with
        | none => none
        | some (ftype, info) =>
          some
            { osm_id := el.osm_id
              name := facilityName el.tags info.name
              facility_type := ftype
              type_display := info.name
              category := info.category
              subcategory := if info.subcat = "" then "other" else info.subcat
              priority := info.priority
              lat := lat
              lng := lng }
    | _, _ => none

/-- Spec-side severity table, written from the spec's §4.4 step 2 wording:
`None→0, LS→20, MS→40, HS→70, VHS→100` (`DF` never reaches this table in
the spec's algorithm; it is given the neutral value 0). -/
def specSeverity : HLevel → ℚ
  | .nodata => 0
  | .LS => 20
  | .MS => 40
  | .HS => 70
  | .VHS => 100
  | .DF => 0

/-- Spec-side weighted score, written from the spec's §4.4 step 3 wording:
`final score = (Σ severity·weight) / (Σ weight of present hazards)` with
weights flood 0.6 / landslide 0.25 / liquefaction 0.15, each hazard
contributing only if present; 0 if no hazard is present.  To be compared
with the source-side `riskBaseScore`. -/
def spec_weighted_risk_score (f l q : HLevel) : ℚ :=
  if ¬ f.present ∧ ¬ l.present ∧ ¬ q.present then 0
  else
    ((if f.present then specSeverity f * 0.6 else 0)
        + (if l.present then specSeverity l * 0.25 else 0)
        + (if q.present then specSeverity q * 0.15 else 0))
      / ((if f.present then (0.6 : ℚ) else 0)
        + (if l.present then 0.25 else 0)
        + (if q.present then 0.15 else 0))

/-! ## Helper lemmas -/

theorem round1_mono {x y : ℚ} (h : x ≤ y) : round1 x ≤ round1 y := by
  unfold round1
  have : round (10 * x) ≤ round (10 * y) := by
    rw [round_eq, round_eq]
    exact Int.floor_le_floor (by linarith)
  have hc : ((round (10 * x) : ℤ) : ℚ) ≤ ((round (10 * y) : ℤ) : ℚ) := by exact_mod_cast this
  linarith

theorem round1_zero : round1 (0 : ℚ) = 0 := by
  norm_num [round1]

theorem round1_hundred : round1 (100 : ℚ) = 100 := by
  norm_num [round1, round_eq]

theorem round1_nonneg {x : ℚ} (h : 0 ≤ x) : 0 ≤ round1 x := by
  have := round1_mono h
  rwa [round1_zero] at this

theorem round1_le_hundred {x : ℚ} (h : x ≤ 100) : round1 x ≤ 100 := by
  have := round1_mono h
  rwa [round1_hundred] at this

theorem sev_nonneg (l : HLevel) : 0 ≤ SEVERITY_SCORES l := by
  cases l <;> norm_num [SEVERITY_SCORES]

theorem sev_le_hundred (l : HLevel) : SEVERITY_SCORES l ≤ 100 := by
  cases l <;> norm_num [SEVERITY_SCORES]

theorem riskTotalWeight_nonneg (f l q : HLevel) : 0 ≤ riskTotalWeight f l q := by
  unfold riskTotalWeight
  split_ifs <;> norm_num

theorem riskWeightedScore_nonneg (f l q : HLevel) : 0 ≤ riskWeightedScore f l q := by
  unfold riskWeightedScore
  have hf := sev_nonneg f
  have hl := sev_nonneg l
  have hq := sev_nonneg q
  split_ifs <;> nlinarith

theorem riskWeightedScore_le (f l q : HLevel) :
    riskWeightedScore f l q ≤ 100 * riskTotalWeight f l q := by
  unfold riskWeightedScore riskTotalWeight
  have hf := sev_le_hundred f
  have hl := sev_le_hundred l
  have hq := sev_le_hundred q
  split_ifs <;> nlinarith

theorem riskBaseScore_nonneg (f l q : HLevel) : 0 ≤ riskBaseScore f l q := by
  unfold riskBaseScore
  split_ifs with h
  · exact div_nonneg (riskWeightedScore_nonneg f l q) (le_of_lt h)
  · exact le_refl 0

theorem riskBaseScore_le_hundred (f l q : HLevel) : riskBaseScore f l q ≤ 100 := by
  unfold riskBaseScore
  split_ifs with h
  · rw [div_le_iff₀ h]
    have := riskWeightedScore_le f l q
    linarith
  · norm_num

theorem riskFinalScore_nonneg (f l q : HLevel) : 0 ≤ riskFinalScore f l q := by
  unfold riskFinalScore
  have hb := riskBaseScore_nonneg f l q
  split_ifs
  · exact le_min (by norm_num) (by nlinarith)
  · exact hb

theorem riskFinalScore_le_hundred (f l q : HLevel) : riskFinalScore f l q ≤ 100 := by
  unfold riskFinalScore
  split_ifs
  · exact min_le_left _ _
  · exact riskBaseScore_le_hundred f l q

theorem risk_score_bounds (f l q : HLevel) :
    0 ≤ (calculate_risk_score f l q).score ∧ (calculate_risk_score f l q).score ≤ 100 ∧
      (calculate_risk_score f l q).score = (calculate_risk_score f l q).raw_score ∧
      (calculate_risk_score f l q).raw_score ≤ 100 := by
  unfold calculate_risk_score
  split_ifs with h
  · refine ⟨?_, ?_, ?_, ?_⟩ <;> norm_num
  · have h0 := riskFinalScore_nonneg f l q
    have h100 := riskFinalScore_le_hundred f l q
    have hmin : min (riskFinalScore f l q) 100 = riskFinalScore f l q := min_eq_left h100
    simp only [hmin]
    exact ⟨round1_nonneg h0, round1_le_hundred h100, trivial, round1_le_hundred h100⟩

/-! ## Claims -/

/-- C1: for every flood and liquefaction level, `landslide_level = 'DF'`
forces the fixed critical risk assessment (score 100, raw 100, category
`CRITICAL - DEBRIS FLOW ZONE`, safety level `EVACUATION REQUIRED`), and
the suitability score of that assessment is 0 with category `NOT SUITABLE`,
identically for every facility summary (accessibility and infrastructure
inputs unused). -/
theorem df_dominance (f q : HLevel) (nf nf' : NearbyFacilities ℚ) :
    (calculate_risk_score f HLevel.DF q).score = 100 ∧
    (calculate_risk_score f HLevel.DF q).raw_score = 100 ∧
    (calculate_risk_score f HLevel.DF q).category = "CRITICAL - DEBRIS FLOW ZONE" ∧
    (calculate_risk_score f HLevel.DF q).safety_level = "EVACUATION REQUIRED" ∧
    (calculate_suitability_score (calculate_risk_score f HLevel.DF q) nf).score = 0 ∧
    (calculate_suitability_score (calculate_risk_score f HLevel.DF q) nf).category =
      "NOT SUITABLE" ∧
    calculate_suitability_score (calculate_risk_score f HLevel.DF q) nf =
      calculate_suitability_score (calculate_risk_score f HLevel.DF q) nf' := by
  refine ⟨?_, ?_, ?_, ?_, ?_, ?_, ?_⟩ <;>
    simp [calculate_risk_score, calculate_suitability_score]

/-- C3: with no debris flow, the severity table is
`None→0, LS→20, MS→40, HS→70, VHS→100`, the pre-penalty score is the
present-hazard-weighted average with weights 0.6/0.25/0.15 (the spec-side
formula `spec_weighted_risk_score`), and with no hazard present the
returned score is 0 with category `LOW RISK`. -/
theorem weighted_severity_model :
    (SEVERITY_SCORES HLevel.nodata = 0 ∧ SEVERITY_SCORES HLevel.LS = 20 ∧
      SEVERITY_SCORES HLevel.MS = 40 ∧ SEVERITY_SCORES HLevel.HS = 70 ∧
      SEVERITY_SCORES HLevel.VHS = 100) ∧
    (∀ f l q : HLevel, l ≠ HLevel.DF →
      riskBaseScore f l q = spec_weighted_risk_score f l q) ∧
    (∀ f l q : HLevel, ¬ f.present → ¬ l.present → ¬ q.present →
      (calculate_risk_score f l q).score = 0 ∧
      (calculate_risk_score f l q).category = "LOW RISK") := by
  refine ⟨⟨rfl, rfl, rfl, rfl, rfl⟩, ?_, ?_⟩
  · intro f l q _
    have hsev : ∀ x : HLevel, specSeverity x = SEVERITY_SCORES x := fun x => by
      cases x <;> rfl
    unfold riskBaseScore spec_weighted_risk_score riskTotalWeight riskWeightedScore
    by_cases pf : f = HLevel.nodata <;> by_cases pl : l = HLevel.nodata <;>
      by_cases pq : q = HLevel.nodata <;>
      simp [pf, pl, pq, HLevel.present, hsev] <;> norm_num
  · intro f l q pf pl pq
    rw [show f = HLevel.nodata by simpa [HLevel.present] using pf,
      show l = HLevel.nodata by simpa [HLevel.present] using pl,
      show q = HLevel.nodata by simpa [HLevel.present] using pq]
    simp [calculate_risk_score, riskFinalScore, highHazardsCount, riskBaseScore,
      riskTotalWeight, riskBand, round1, round_eq]
    norm_num

/-- C4: with no debris flow, when at least two hazards are at high severity
the score is the ×1.25-multiplied normalized score capped at 100, otherwise
no multiplier is applied; in particular `('HS','HS','HS')` has weighted
baseline 70 and final score `70 × 1.25 = 87.5`. -/
theorem combined_hazard_penalty :
    (∀ f l q : HLevel, l ≠ HLevel.DF → 2 ≤ highHazardsCount f l q →
      (calculate_risk_score f l q).score = round1 (min 100 (riskBaseScore f l q * 1.25))) ∧
    (∀ f l q : HLevel, l ≠ HLevel.DF → highHazardsCount f l q < 2 →
      (calculate_risk_score f l q).score = round1 (riskBaseScore f l q)) ∧
    riskBaseScore HLevel.HS HLevel.HS HLevel.HS = 70 ∧
    (calculate_risk_score HLevel.HS HLevel.HS HLevel.HS).score =
      round1 (min 100 (riskBaseScore HLevel.HS HLevel.HS HLevel.HS * 1.25)) ∧
    (calculate_risk_score HLevel.HS HLevel.HS HLevel.HS).score = 87.5 := by
  have hbase : riskBaseScore HLevel.HS HLevel.HS HLevel.HS = 70 := by
    simp [riskBaseScore, riskTotalWeight, riskWeightedScore, SEVERITY_SCORES]
    norm_num
  have hpen : ∀ f l q : HLevel, l ≠ HLevel.DF → 2 ≤ highHazardsCount f l q →
      (calculate_risk_score f l q).score = round1 (min 100 (riskBaseScore f l q * 1.25)) := by
    intro f l q hl hc
    have hle : riskFinalScore f l q ≤ 100 := riskFinalScore_le_hundred f l q
    have hfin : riskFinalScore f l q = min 100 (riskBaseScore f l q * 1.25) := by
      unfold riskFinalScore
      rw [if_pos hc]
    simp only [calculate_risk_score, if_neg hl]
    rw [min_eq_left hle, hfin]
  refine ⟨hpen, ?_, hbase, ?_, ?_⟩
  · intro f l q hl hc
    have hle : riskFinalScore f l q ≤ 100 := riskFinalScore_le_hundred f l q
    have hfin : riskFinalScore f l q = riskBaseScore f l q := by
      unfold riskFinalScore
      rw [if_neg (by omega)]
    simp only [calculate_risk_score, if_neg hl]
    rw [min_eq_left hle, hfin]
  · exact hpen HLevel.HS HLevel.HS HLevel.HS (by simp) (by simp [highHazardsCount])
  · rw [hpen HLevel.HS HLevel.HS HLevel.HS (by simp) (by simp [highHazardsCount]), hbase]
    norm_num [round1, round_eq, min_def]

theorem sev_flood_mono (f₁ f₂ : HLevel) (h₁ : f₁.present) (h₂ : f₂.present)
    (hv₁ : validFlood f₁) (hv₂ : validFlood f₂) (hr : floodRank f₁ ≤ floodRank f₂) :
    SEVERITY_SCORES f₁ ≤ SEVERITY_SCORES f₂ := by
  cases f₁ <;> cases f₂ <;>
    simp_all [HLevel.present, validFlood, floodRank, SEVERITY_SCORES] <;> norm_num

theorem high_flood_mono (f₁ f₂ : HLevel) (h₂ : f₂.present) (hv₂ : validFlood f₂)
    (hr : floodRank f₁ ≤ floodRank f₂) (hh : f₁ = HLevel.HS ∨ f₁ = HLevel.VHS) :
    f₂ = HLevel.HS ∨ f₂ = HLevel.VHS := by
  cases f₁ <;> cases f₂ <;> simp_all [floodRank, validFlood, HLevel.present]

theorem highCount_mono (f₁ f₂ l q : HLevel) (h₂ : f₂.present) (hv₂ : validFlood f₂)
    (hr : floodRank f₁ ≤ floodRank f₂) :
    highHazardsCount f₁ l q ≤ highHazardsCount f₂ l q := by
  unfold highHazardsCount
  have h : (if f₁ = HLevel.HS ∨ f₁ = HLevel.VHS then 1 else 0) ≤
      (if f₂ = HLevel.HS ∨ f₂ = HLevel.VHS then (1 : ℕ) else 0) := by
    split_ifs with hA hB
    · omega
    · exact absurd (high_flood_mono f₁ f₂ h₂ hv₂ hr hA) hB
    · omega
    · omega
  omega

theorem riskTotalWeight_eq_of_present (f₁ f₂ l q : HLevel) (h₁ : f₁.present)
    (h₂ : f₂.present) : riskTotalWeight f₁ l q = riskTotalWeight f₂ l q := by
  unfold riskTotalWeight
  rw [if_pos (show f₁ ≠ HLevel.nodata from h₁), if_pos (show f₂ ≠ HLevel.nodata from h₂)]

theorem riskTotalWeight_pos_of_flood (f l q : HLevel) (h : f.present) :
    0 < riskTotalWeight f l q := by
  unfold riskTotalWeight
  rw [if_pos (show f ≠ HLevel.nodata from h)]
  split_ifs <;> norm_num

theorem riskWeightedScore_flood_mono (f₁ f₂ l q : HLevel) (h₁ : f₁.present) (h₂ : f₂.present)
    (hv₁ : validFlood f₁) (hv₂ : validFlood f₂) (hr : floodRank f₁ ≤ floodRank f₂) :
    riskWeightedScore f₁ l q ≤ riskWeightedScore f₂ l q := by
  unfold riskWeightedScore
  rw [if_pos (show f₁ ≠ HLevel.nodata from h₁), if_pos (show f₂ ≠ HLevel.nodata from h₂)]
  have hs := sev_flood_mono f₁ f₂ h₁ h₂ hv₁ hv₂ hr
  have h6 : SEVERITY_SCORES f₁ * 0.6 ≤ SEVERITY_SCORES f₂ * 0.6 := by nlinarith
  linarith

theorem riskBaseScore_flood_mono (f₁ f₂ l q : HLevel) (h₁ : f₁.present) (h₂ : f₂.present)
    (hv₁ : validFlood f₁) (hv₂ : validFlood f₂) (hr : floodRank f₁ ≤ floodRank f₂) :
    riskBaseScore f₁ l q ≤ riskBaseScore f₂ l q := by
  unfold riskBaseScore
  have hw := riskTotalWeight_eq_of_present f₁ f₂ l q h₁ h₂
  have hpos := riskTotalWeight_pos_of_flood f₂ l q h₂
  rw [hw, if_pos hpos, if_pos hpos]
  have hnum := riskWeightedScore_flood_mono f₁ f₂ l q h₁ h₂ hv₁ hv₂ hr
  exact div_le_div_of_nonneg_right hnum (le_of_lt hpos)

theorem riskFinalScore_flood_mono (f₁ f₂ l q : HLevel) (h₁ : f₁.present) (h₂ : f₂.present)
    (hv₁ : validFlood f₁) (hv₂ : validFlood f₂) (hr : floodRank f₁ ≤ floodRank f₂) :
    riskFinalScore f₁ l q ≤ riskFinalScore f₂ l q := by
  unfold riskFinalScore
  have hb := riskBaseScore_flood_mono f₁ f₂ l q h₁ h₂ hv₁ hv₂ hr
  have hb₁ := riskBaseScore_nonneg f₁ l q
  have hb₂ := riskBaseScore_nonneg f₂ l q
  have hb₁100 := riskBaseScore_le_hundred f₁ l q
  have hc := highCount_mono f₁ f₂ l q h₂ hv₂ hr
  split_ifs with hA hB
  · exact min_le_min (le_refl 100) (by nlinarith)
  · omega
  · exact le_min hb₁100 (by nlinarith)
  · exact hb

/-- C2 (counterexample): raising the flood level from `None` to the strictly
higher `LS` with landslide `VHS` strictly lowers the risk score (100 → 43.5):
the claimed monotonicity along `None < LS < MS < HS < VHS` fails at the
`None → present` step, because the present-hazard normalization stops
attributing all weight to the landslide. -/
theorem flood_monotonicity_counterexample :
    floodRank HLevel.nodata < floodRank HLevel.LS ∧
    (calculate_risk_score HLevel.LS HLevel.VHS HLevel.nodata).score <
      (calculate_risk_score HLevel.nodata HLevel.VHS HLevel.nodata).score := by
  constructor
  · norm_num [floodRank]
  · simp [calculate_risk_score, riskFinalScore, highHazardsCount, riskBaseScore,
      riskTotalWeight, riskWeightedScore, SEVERITY_SCORES, round1, round_eq, min_def]
    norm_num

/-- C2 (amended): for fixed landslide and liquefaction levels, the risk
score is monotonically non-decreasing in the flood level along
`LS < MS < HS < VHS` — that is, among flood levels that are present; the
step from `None` to a present level can decrease the score (see the
counterexample). -/
theorem flood_monotonicity (f₁ f₂ l q : HLevel) (h₁ : f₁.present) (h₂ : f₂.present)
    (hv₁ : validFlood f₁) (hv₂ : validFlood f₂) (hr : floodRank f₁ ≤ floodRank f₂) :
    (calculate_risk_score f₁ l q).score ≤ (calculate_risk_score f₂ l q).score := by
  by_cases hdf : l = HLevel.DF
  · simp [calculate_risk_score, hdf]
  · have hfin := riskFinalScore_flood_mono f₁ f₂ l q h₁ h₂ hv₁ hv₂ hr
    have h100₁ := riskFinalScore_le_hundred f₁ l q
    have h100₂ := riskFinalScore_le_hundred f₂ l q
    simp only [calculate_risk_score, if_neg hdf]
    rw [min_eq_left h100₁, min_eq_left h100₂]
    exact round1_mono hfin

/-- Witness for the amended C2 at `(LS, VHS, None) → (MS, VHS, None)`. -/
theorem flood_monotonicity_witness :
    HLevel.present HLevel.LS ∧ HLevel.present HLevel.MS ∧
    validFlood HLevel.LS ∧ validFlood HLevel.MS ∧
    floodRank HLevel.LS ≤ floodRank HLevel.MS ∧
    (calculate_risk_score HLevel.LS HLevel.VHS HLevel.nodata).score ≤
      (calculate_risk_score HLevel.MS HLevel.VHS HLevel.nodata).score :=
  ⟨by simp [HLevel.present], by simp [HLevel.present],
   by simp [validFlood], by simp [validFlood],
   by norm_num [floodRank],
   flood_monotonicity HLevel.LS HLevel.MS HLevel.VHS HLevel.nodata
     (by simp [HLevel.present]) (by simp [HLevel.present])
     (by simp [validFlood]) (by simp [validFlood]) (by norm_num [floodRank])⟩

theorem evacProximityScore_bounds (d : ℚ) :
    0 ≤ evacProximityScore d ∧ evacProximityScore d ≤ 100 :=
  ⟨le_max_left 0 _, max_le (by norm_num) (min_le_left _ _)⟩

theorem hospProximityScore_bounds (d : ℚ) :
    0 ≤ hospProximityScore d ∧ hospProximityScore d ≤ 100 :=
  ⟨le_max_left 0 _, max_le (by norm_num) (min_le_left _ _)⟩

theorem accessibilityScore_bounds (nf : NearbyFacilities ℚ) :
    0 ≤ accessibilityScore nf ∧ accessibilityScore nf ≤ 100 := by
  unfold accessibilityScore
  rcases nf.nearest_evacuation with _ | e <;> rcases nf.nearest_hospital with _ | h <;>
    dsimp only
  · constructor <;> norm_num
  · obtain ⟨b1, b2⟩ := hospProximityScore_bounds h.distance_meters
    constructor <;> linarith
  · obtain ⟨a1, a2⟩ := evacProximityScore_bounds e.distance_meters
    constructor <;> linarith
  · obtain ⟨a1, a2⟩ := evacProximityScore_bounds e.distance_meters
    obtain ⟨b1, b2⟩ := hospProximityScore_bounds h.distance_meters
    constructor <;> linarith

theorem infrastructureScore_nonneg (c : FacilityCounts) : 0 ≤ infrastructureScore c := by
  unfold infrastructureScore
  split_ifs <;> norm_num

theorem suitability_score_bounds (r : RiskAssessment) (nf : NearbyFacilities ℚ)
    (h0 : 0 ≤ r.score) (h1 : r.score ≤ 100) :
    0 ≤ (calculate_suitability_score r nf).score ∧
      (calculate_suitability_score r nf).score ≤ 100 := by
  unfold calculate_suitability_score
  split_ifs with hsl
  · constructor <;> norm_num
  · dsimp only
    have hacc := accessibilityScore_bounds nf
    have hinfra := infrastructureScore_nonneg nf.counts
    have hmin1 : (0 : ℚ) ≤ min 100 (infrastructureScore nf.counts) :=
      le_min (by norm_num) hinfra
    have hmin2 : min (100 : ℚ) (infrastructureScore nf.counts) ≤ 100 := min_le_left _ _
    obtain ⟨ha0, ha1⟩ := hacc
    constructor
    · apply round1_nonneg
      split_ifs with hp <;> nlinarith
    · apply round1_le_hundred
      split_ifs with hp <;> nlinarith

/-- C5: for every valid combination of hazard levels and every facility
summary, both the risk score and the suitability score lie in `[0, 100]`,
and the risk assessment satisfies `score = min(raw_score, 100)` (in this
code the pre-cap final score never exceeds 100, so `score = raw_score`). -/
theorem score_bounds (f l q : HLevel) (nf : NearbyFacilities ℚ)
    (_hf : validFlood f) (_hq : validLiq q) :
    0 ≤ (calculate_risk_score f l q).score ∧ (calculate_risk_score f l q).score ≤ 100 ∧
    (calculate_risk_score f l q).score = min (calculate_risk_score f l q).raw_score 100 ∧
    0 ≤ (calculate_suitability_score (calculate_risk_score f l q) nf).score ∧
    (calculate_suitability_score (calculate_risk_score f l q) nf).score ≤ 100 := by
  obtain ⟨hr0, hr1, hrs, hraw⟩ := risk_score_bounds f l q
  obtain ⟨hs0, hs1⟩ := suitability_score_bounds (calculate_risk_score f l q) nf hr0 hr1
  refine ⟨hr0, hr1, ?_, hs0, hs1⟩
  rw [min_eq_left hraw]
  exact hrs

/-- Witness for C5 at `flood = LS`, `landslide = MS`, `liquefaction = HS`
and a one-evacuation-center facility summary. -/
theorem score_bounds_witness :
    validFlood HLevel.LS ∧ validLiq HLevel.HS ∧
    (0 ≤ (calculate_risk_score HLevel.LS HLevel.MS HLevel.HS).score ∧
     (calculate_risk_score HLevel.LS HLevel.MS HLevel.HS).score ≤ 100 ∧
     (calculate_risk_score HLevel.LS HLevel.MS HLevel.HS).score =
       min (calculate_risk_score HLevel.LS HLevel.MS HLevel.HS).raw_score 100 ∧
     0 ≤ (calculate_suitability_score (calculate_risk_score HLevel.LS HLevel.MS HLevel.HS)
        ⟨some ⟨"Evac Center", 1200, True⟩, none, none, ⟨1, 0, 0, 0, 0, 1⟩⟩).score ∧
     (calculate_suitability_score (calculate_risk_score HLevel.LS HLevel.MS HLevel.HS)
        ⟨some ⟨"Evac Center", 1200, True⟩, none, none, ⟨1, 0, 0, 0, 0, 1⟩⟩).score ≤ 100) :=
  ⟨by simp [validFlood], by simp [validLiq],
   score_bounds HLevel.LS HLevel.MS HLevel.HS
     ⟨some ⟨"Evac Center", 1200, True⟩, none, none, ⟨1, 0, 0, 0, 0, 1⟩⟩
     (by simp [validFlood]) (by simp [validLiq])⟩

/-- C6: away from the debris-flow short-circuit, the suitability score is
`(100 − risk.score)·0.6` plus the 50/50 evacuation/hospital proximity
component (linear clamp ramps, zero when the facility is absent) times 0.2,
plus the banded infrastructure points capped at 100 times 0.2, the total
being multiplied by 0.8 exactly when `risk.score ≥ 75` (and rounded to one
decimal for display). -/
theorem suitability_formula (r : RiskAssessment) (nf : NearbyFacilities ℚ)
    (h : r.safety_level ≠ "EVACUATION REQUIRED") :
    (calculate_suitability_score r nf).score =
      round1
        (let evac_subscore : ℚ :=
          match nf.nearest_evacuation with
          | some e => max 0 (min 100 (100 - ((e.distance_meters / 1000 - 0.5) / 4.5) * 100))
          | none => 0
        let hosp_subscore : ℚ :=
          match nf.nearest_hospital with
          | some hsp => max 0 (min 100 (100 - ((hsp.distance_meters / 1000 - 1) / 9) * 100))
          | none => 0
        let total := (100 - r.score) * 0.6
          + (evac_subscore * 0.5 + hosp_subscore * 0.5) * 0.2
          + min 100 (infrastructureScore nf.counts) * 0.2
        if 75 ≤ r.score then total * 0.8 else total) := by
  unfold calculate_suitability_score
  rw [if_neg h]
  dsimp only
  unfold accessibilityScore evacProximityScore hospProximityScore
  rcases nf.nearest_evacuation with _ | e <;> rcases nf.nearest_hospital with _ | hsp <;>
    dsimp only <;> congr 1 <;> split_ifs <;> ring

section PipelineLemmas

variable {α : Type*} [LinearOrderedField α]

theorem insertByDistance_mem (x z : Facility α) (l : List (Facility α)) :
    z ∈ insertByDistance x l ↔ z = x ∨ z ∈ l := by
  induction l with
  | nil => simp [insertByDistance]
  | cons y ys ih =>
    unfold insertByDistance
    split_ifs <;> simp [ih] <;> tauto

theorem insertByDistance_perm (x : Facility α) (l : List (Facility α)) :
    List.Perm (insertByDistance x l) (x :: l) := by
  induction l with
  | nil => exact List.Perm.refl _
  | cons y ys ih =>
    unfold insertByDistance
    split_ifs
    · exact List.Perm.refl _
    · exact (ih.cons y).trans (List.Perm.swap x y ys)

theorem sortByDistance_perm (l : List (Facility α)) : List.Perm (sortByDistance l) l := by
  induction l with
  | nil => exact List.Perm.refl _
  | cons x xs ih => exact (insertByDistance_perm x (sortByDistance xs)).trans (ih.cons x)

theorem insertByDistance_sorted (x : Facility α) (l : List (Facility α))
    (h : l.Pairwise (fun a b => a.distance_meters ≤ b.distance_meters)) :
    (insertByDistance x l).Pairwise (fun a b => a.distance_meters ≤ b.distance_meters) := by
  induction l with
  | nil => simp [insertByDistance]
  | cons y ys ih =>
    rw [List.pairwise_cons] at h
    obtain ⟨hy, hys⟩ := h
    unfold insertByDistance
    split_ifs with hxy
    · refine List.Pairwise.cons ?_ (List.Pairwise.cons hy hys)
      intro z hz
      rcases List.mem_cons.mp hz with rfl | hz
      · exact hxy
      · exact le_trans hxy (hy z hz)
    · refine List.Pairwise.cons ?_ (ih hys)
      intro z hz
      rcases (insertByDistance_mem x z ys).mp hz with rfl | hz
      · exact le_of_not_le hxy
      · exact hy z hz

theorem sortByDistance_sorted (l : List (Facility α)) :
    (sortByDistance l).Pairwise (fun a b => a.distance_meters ≤ b.distance_meters) := by
  induction l with
  | nil => simp [sortByDistance]
  | cons x xs ih => exact insertByDistance_sorted x (sortByDistance xs) ih

theorem insertByDistance_filter (x : Facility α) (l : List (Facility α)) (c : α) :
    (insertByDistance x l).filter (fun f => decide (f.distance_meters = c)) =
      if x.distance_meters = c then
        x :: l.filter (fun f => decide (f.distance_meters = c))
      else l.filter (fun f => decide (f.distance_meters = c)) := by
  induction l with
  | nil =>
    simp only [insertByDistance, List.filter]
    split_ifs with hx <;> simp [hx]
  | cons y ys ih =>
    unfold insertByDistance
    by_cases hxy : x.distance_meters ≤ y.distance_meters
    · rw [if_pos hxy]
      by_cases hx : x.distance_meters = c <;> simp [List.filter_cons, hx]
    · rw [if_neg hxy]
      by_cases hx : x.distance_meters = c
      · have hyc : ¬ y.distance_meters = c := by
          intro hyc
          exact hxy (le_of_eq (hx.trans hyc.symm))
        simp [List.filter_cons, hyc, ih, hx]
      · by_cases hyc : y.distance_meters = c <;> simp [List.filter_cons, hyc, ih, hx]

theorem sortByDistance_stable (l : List (Facility α)) (c : α) :
    (sortByDistance l).filter (fun f => decide (f.distance_meters = c)) =
      l.filter (fun f => decide (f.distance_meters = c)) := by
  induction l with
  | nil => rfl
  | cons x xs ih =>
    show (insertByDistance x (sortByDistance xs)).filter _ = _
    rw [insertByDistance_filter]
    by_cases hx : x.distance_meters = c <;> simp [hx, ih, List.filter_cons]

end PipelineLemmas

section PartitionLemmas

variable {α : Type*}

theorem partitionFacilities_eq_filters (l : List (Facility α)) :
    (partitionFacilities l).evacuation_centers =
      (l.filter fun f => decide (facilityCat f = Subcat.evacuation)).map assignSubcat ∧
    (partitionFacilities l).medical =
      (l.filter fun f => decide (facilityCat f = Subcat.medical)).map assignSubcat ∧
    (partitionFacilities l).emergency_services =
      (l.filter fun f => decide (facilityCat f = Subcat.emergency_services)).map assignSubcat ∧
    (partitionFacilities l).essential_services =
      (l.filter fun f => decide (facilityCat f = Subcat.essential)).map assignSubcat ∧
    (partitionFacilities l).other_facilities =
      (l.filter fun f => decide (facilityCat f = Subcat.other)).map assignSubcat := by
  induction l with
  | nil => exact ⟨rfl, rfl, rfl, rfl, rfl⟩
  | cons f fs ih =>
    obtain ⟨ih1, ih2, ih3, ih4, ih5⟩ := ih
    rcases hcat : facilityCat f <;>
      simp [partitionFacilities, hcat, List.filter_cons, ih1, ih2, ih3, ih4, ih5]

theorem partitionFacilities_length_sum (l : List (Facility α)) :
    (partitionFacilities l).evacuation_centers.length + (partitionFacilities l).medical.length +
      (partitionFacilities l).emergency_services.length +
      (partitionFacilities l).essential_services.length +
      (partitionFacilities l).other_facilities.length = l.length := by
  induction l with
  | nil => rfl
  | cons f fs ih =>
    rcases hcat : facilityCat f <;> simp [partitionFacilities, hcat] <;> omega

theorem partitionFacilities_concat_perm (l : List (Facility α)) :
    List.Perm
      ((partitionFacilities l).evacuation_centers ++ (partitionFacilities l).medical ++
        (partitionFacilities l).emergency_services ++
        (partitionFacilities l).essential_services ++
        (partitionFacilities l).other_facilities)
      (l.map assignSubcat) := by
  induction l with
  | nil => exact List.Perm.refl _
  | cons f fs ih =>
    simp only [List.append_assoc] at ih
    rcases hcat : facilityCat f <;>
      simp only [partitionFacilities, hcat, List.map_cons, List.cons_append, List.append_assoc]
    · exact ih.cons (assignSubcat f)
    · exact List.perm_middle.trans (ih.cons (assignSubcat f))
    · exact ((List.perm_middle.append_left _).trans List.perm_middle).trans
        (ih.cons (assignSubcat f))
    · exact ((((List.perm_middle.append_left _).trans List.perm_middle).append_left _).trans
        List.perm_middle).trans (ih.cons (assignSubcat f))
    · exact ((((((List.perm_middle.append_left _).trans List.perm_middle).append_left _).trans
        List.perm_middle).append_left _).trans List.perm_middle).trans
        (ih.cons (assignSubcat f))

theorem assignSubcat_distance (f : Facility α) :
    (assignSubcat f).distance_meters = f.distance_meters := rfl

end PartitionLemmas

/-- C7: the grouping step of `get_nearby_facilities` partitions the sorted
facility list into the five groups by the first-match-wins categorization
(evacuation, medical, emergency services, essential, other — `facilityCat`),
so each facility lands in exactly one group (their concatenation is a
permutation of the whole list), the group sizes sum to the input size, and
every group is ascending in `distance_meters` with ties keeping the input
order (the sort is stable). -/
theorem facility_grouping (l : List (Facility ℚ)) :
    ((partitionFacilities (sortByDistance l)).evacuation_centers =
        ((sortByDistance l).filter fun f =>
          decide (facilityCat f = Subcat.evacuation)).map assignSubcat ∧
      (partitionFacilities (sortByDistance l)).medical =
        ((sortByDistance l).filter fun f =>
          decide (facilityCat f = Subcat.medical)).map assignSubcat ∧
      (partitionFacilities (sortByDistance l)).emergency_services =
        ((sortByDistance l).filter fun f =>
          decide (facilityCat f = Subcat.emergency_services)).map assignSubcat ∧
      (partitionFacilities (sortByDistance l)).essential_services =
        ((sortByDistance l).filter fun f =>
          decide (facilityCat f = Subcat.essential)).map assignSubcat ∧
      (partitionFacilities (sortByDistance l)).other_facilities =
        ((sortByDistance l).filter fun f =>
          decide (facilityCat f = Subcat.other)).map assignSubcat) ∧
    List.Perm
      ((partitionFacilities (sortByDistance l)).evacuation_centers ++
        (partitionFacilities (sortByDistance l)).medical ++
        (partitionFacilities (sortByDistance l)).emergency_services ++
        (partitionFacilities (sortByDistance l)).essential_services ++
        (partitionFacilities (sortByDistance l)).other_facilities)
      ((sortByDistance l).map assignSubcat) ∧
    (partitionFacilities (sortByDistance l)).evacuation_centers.length +
        (partitionFacilities (sortByDistance l)).medical.length +
        (partitionFacilities (sortByDistance l)).emergency_services.length +
        (partitionFacilities (sortByDistance l)).essential_services.length +
        (partitionFacilities (sortByDistance l)).other_facilities.length = l.length ∧
    ((partitionFacilities (sortByDistance l)).evacuation_centers.Pairwise
        (fun a b => a.distance_meters ≤ b.distance_meters) ∧
      (partitionFacilities (sortByDistance l)).medical.Pairwise
        (fun a b => a.distance_meters ≤ b.distance_meters) ∧
      (partitionFacilities (sortByDistance l)).emergency_services.Pairwise
        (fun a b => a.distance_meters ≤ b.distance_meters) ∧
      (partitionFacilities (sortByDistance l)).essential_services.Pairwise
        (fun a b => a.distance_meters ≤ b.distance_meters) ∧
      (partitionFacilities (sortByDistance l)).other_facilities.Pairwise
        (fun a b => a.distance_meters ≤ b.distance_meters)) ∧
    (∀ c : ℚ, (sortByDistance l).filter (fun f => decide (f.distance_meters = c)) =
      l.filter (fun f => decide (f.distance_meters = c))) := by
  obtain ⟨h1, h2, h3, h4, h5⟩ := partitionFacilities_eq_filters (sortByDistance l)
  have hsorted := sortByDistance_sorted l
  have hpw : ∀ p : Facility ℚ → Bool,
      ((((sortByDistance l).filter p).map assignSubcat).Pairwise
        (fun a b => a.distance_meters ≤ b.distance_meters)) := by
    intro p
    rw [List.pairwise_map]
    exact (hsorted.filter p).imp (fun h => by
      simpa only [assignSubcat_distance] using h)
  refine ⟨⟨h1, h2, h3, h4, h5⟩, partitionFacilities_concat_perm _, ?_, ?_, ?_⟩
  · rw [partitionFacilities_length_sum (sortByDistance l)]
    exact (sortByDistance_perm l).length_eq
  · exact ⟨h1 ▸ hpw _, h2 ▸ hpw _, h3 ▸ hpw _, h4 ▸ hpw _, h5 ▸ hpw _⟩
  · exact sortByDistance_stable l

/-- C8: in the facility summary, `nearest_evacuation` / `nearest_hospital`
are the heads of their groups (`None` when empty — the hospital lookup takes
the first medical entry whatever its facility type), `nearest_fire_station`
is the first emergency-services entry whose `facility_type` is exactly
`'fire_station'` (so a police station is never selected), and the
`is_walkable` flag of an annotated facility holds exactly when
`distance_meters ≤ 500`; in the hospital-at-400 m / school-at-600 m scenario
the hospital is `medical[0]` and walkable while the school is
`evacuation[0]` and not walkable. -/
theorem nearest_facility_extraction :
    (∀ (total : ℕ) (g : FacilityGroups ℚ),
      (g.evacuation_centers = [] → (facilitiesSummary total g).nearest_evacuation = none) ∧
      (∀ f rest, g.evacuation_centers = f :: rest →
        (facilitiesSummary total g).nearest_evacuation = some (build_facility_summary f)) ∧
      (g.medical = [] → (facilitiesSummary total g).nearest_hospital = none) ∧
      (∀ f rest, g.medical = f :: rest →
        (facilitiesSummary total g).nearest_hospital = some (build_facility_summary f)) ∧
      ((facilitiesSummary total g).nearest_fire_station =
        (g.emergency_services.find? (fun f => f.facility_type == "fire_station")).map
          build_facility_summary) ∧
      (∀ s ∈ g.emergency_services.find? (fun f => f.facility_type == "fire_station"),
        s.facility_type = "fire_station")) ∧
    (∀ (d : ℚ) (rf : RawFacility ℚ),
      (annotateFacility d rf).is_walkable ↔ d ≤ 500) ∧
    (let hosp : Facility ℚ :=
      annotateFacility 400 ⟨1, "City Hospital", "hospital", "Hospital", "emergency", "medical", 1, 0, 0⟩
    let school : Facility ℚ :=
      annotateFacility 600 ⟨2, "Central School", "school", "School", "everyday", "evacuation", 1, 0, 0⟩
    let g := partitionFacilities (sortByDistance [hosp, school])
    g.medical = [assignSubcat hosp] ∧
    g.evacuation_centers = [assignSubcat school] ∧
    (∃ s, (facilitiesSummary 2 g).nearest_hospital = some s ∧
      s.name = "City Hospital" ∧ s.distance_meters = 400 ∧ s.is_walkable) ∧
    (∃ s, (facilitiesSummary 2 g).nearest_evacuation = some s ∧
      s.name = "Central School" ∧ s.distance_meters = 600 ∧ ¬ s.is_walkable)) := by
  refine ⟨?_, ?_, ?_⟩
  · intro total g
    refine ⟨?_, ?_, ?_, ?_, rfl, ?_⟩
    · intro h
      simp [facilitiesSummary, h]
    · intro f rest h
      simp [facilitiesSummary, h]
    · intro h
      simp [facilitiesSummary, h]
    · intro f rest h
      simp [facilitiesSummary, h]
    · intro s hs
      have := List.find?_some hs
      simpa using this
  · intro d rf
    exact Iff.rfl
  · have hsort : sortByDistance
        [annotateFacility (400 : ℚ) ⟨1, "City Hospital", "hospital", "Hospital", "emergency", "medical", 1, 0, 0⟩,
         annotateFacility (600 : ℚ) ⟨2, "Central School", "school", "School", "everyday", "evacuation", 1, 0, 0⟩] =
        [annotateFacility (400 : ℚ) ⟨1, "City Hospital", "hospital", "Hospital", "emergency", "medical", 1, 0, 0⟩,
         annotateFacility (600 : ℚ) ⟨2, "Central School", "school", "School", "everyday", "evacuation", 1, 0, 0⟩] := by
      show insertByDistance _ (insertByDistance _ []) = _
      norm_num [insertByDistance, annotateFacility]
    refine ⟨?_, ?_, ?_, ?_⟩ <;>
      simp only [hsort]
    · simp [partitionFacilities, facilityCat, annotateFacility]
    · simp [partitionFacilities, facilityCat, annotateFacility]
    · refine ⟨build_facility_summary (assignSubcat (annotateFacility 400
        ⟨1, "City Hospital", "hospital", "Hospital", "emergency", "medical", 1, 0, 0⟩)), ?_, rfl, rfl, ?_⟩
      · simp [facilitiesSummary, partitionFacilities, facilityCat, annotateFacility]
      · show (400 : ℚ) ≤ 500
        norm_num
    · refine ⟨build_facility_summary (assignSubcat (annotateFacility 600
        ⟨2, "Central School", "school", "School", "everyday", "evacuation", 1, 0, 0⟩)), ?_, rfl, rfl, ?_⟩
      · simp [facilitiesSummary, partitionFacilities, facilityCat, annotateFacility]
      · show ¬ (600 : ℚ) ≤ 500
        norm_num

/-- Witness for C8 at an emergency-services group holding a police station
followed by a fire station, with an empty medical group. -/
theorem nearest_facility_extraction_witness :
    ((FacilityGroups.mk [] []
        [⟨⟨10, "Precinct 1", "police", "Police Station", "emergency", "emergency_services", 1, 0, 0⟩,
          100, 0.1, True, 0.2, "straight_line"⟩,
         ⟨⟨11, "Central Fire Station", "fire_station", "Fire Station", "emergency", "emergency_services", 1, 0, 0⟩,
          200, 0.2, True, 0.3, "straight_line"⟩] [] [] : FacilityGroups ℚ)).medical = [] ∧
    (facilitiesSummary 2 ((FacilityGroups.mk [] []
        [⟨⟨10, "Precinct 1", "police", "Police Station", "emergency", "emergency_services", 1, 0, 0⟩,
          100, 0.1, True, 0.2, "straight_line"⟩,
         ⟨⟨11, "Central Fire Station", "fire_station", "Fire Station", "emergency", "emergency_services", 1, 0, 0⟩,
          200, 0.2, True, 0.3, "straight_line"⟩] [] [] : FacilityGroups ℚ))).nearest_hospital =
      none := by
  refine ⟨rfl, ?_⟩
  exact (nearest_facility_extraction.1 2 ((FacilityGroups.mk [] []
    [⟨⟨10, "Precinct 1", "police", "Police Station", "emergency", "emergency_services", 1, 0, 0⟩,
      100, 0.1, True, 0.2, "straight_line"⟩,
     ⟨⟨11, "Central Fire Station", "fire_station", "Fire Station", "emergency", "emergency_services", 1, 0, 0⟩,
      200, 0.2, True, 0.3, "straight_line"⟩] [] [] : FacilityGroups ℚ))).2.2.1 rfl

/-- C10: every facility annotated by the views' distance loop (used by both
`get_nearby_facilities` and `get_nearby_facilities_for_suitability`) carries
`method = 'straight_line'` (never `'road'` or `'road_cached'`), a
`distance_meters` equal to `calculate_haversine_distance` (haversine with
Earth radius 6 371 000 m) from the query point, and
`duration_minutes = round((distance_meters/1000)/40*60, 1)`. -/
theorem straight_line_method (lat lng : ℝ) (raw : List (RawFacility ℝ)) :
    get_nearby_facilities lat lng raw = facilitiesPipeline (annotateFacilities lat lng raw) ∧
    get_nearby_facilities_for_suitability lat lng raw =
      (facilitiesPipeline (annotateFacilities lat lng raw)).2 ∧
    ∀ f ∈ annotateFacilities lat lng raw,
      f.method = "straight_line" ∧ f.method ≠ "road" ∧ f.method ≠ "road_cached" ∧
      ∃ rf ∈ raw, f = annotateFacility (calculate_haversine_distance lat lng rf.lat rf.lng) rf ∧
        f.distance_meters = calculate_haversine_distance lat lng rf.lat rf.lng ∧
        f.duration_minutes = round1 (f.distance_meters / 1000 / 40 * 60) := by
  refine ⟨rfl, rfl, ?_⟩
  intro f hf
  obtain ⟨rf, hrf, hfe⟩ := List.mem_map.mp hf
  subst hfe
  exact ⟨rfl, by simp [annotateFacility], by simp [annotateFacility],
    rf, hrf, rfl, rfl, rfl⟩

/-- Witness for C10: origin and facility both at `(0, 0)`. -/
theorem straight_line_method_witness :
    (annotateFacility (calculate_haversine_distance 0 0 0 0)
        (⟨5, "Origin Clinic", "clinic", "Clinic", "emergency", "medical", 1, 0, 0⟩ :
          RawFacility ℝ)).method = "straight_line" ∧
    (annotateFacility (calculate_haversine_distance 0 0 0 0)
        (⟨5, "Origin Clinic", "clinic", "Clinic", "emergency", "medical", 1, 0, 0⟩ :
          RawFacility ℝ)).distance_meters = calculate_haversine_distance 0 0 0 0 := by
  have h := (straight_line_method 0 0
    [⟨5, "Origin Clinic", "clinic", "Clinic", "emergency", "medical", 1, 0, 0⟩]).2.2
    (annotateFacility (calculate_haversine_distance 0 0 0 0)
      ⟨5, "Origin Clinic", "clinic", "Clinic", "emergency", "medical", 1, 0, 0⟩)
    (by simp [annotateFacilities])
  exact ⟨h.1, rfl⟩

/-- C9 (counterexample): an element whose `amenity` type is not in the
static table but whose name contains "Barangay" is dropped (`None`), not
classified as a government "Barangay Hall": `_parse_element` has no
name-keyword fallback. -/
theorem parse_element_barangay_counterexample :
    _parse_element ⟨"node", 7, some 9, some 123, none, none,
      [("amenity", "public_bath"), ("name", "Barangay Hall of Daro")]⟩ = none ∧
    AMENITY_MAPPING.lookup "public_bath" = none :=
  ⟨rfl, rfl⟩

/-- C9 (amended): classification of a raw facility element returns null
(the element is dropped) whenever the consulted type table has no entry for
its type tag — unconditionally: there is no name-keyword rescue, so even an
element whose name contains "barangay" is dropped.  Only the first tag kind
present among `amenity`/`shop`/`office` is consulted. -/
theorem parse_element_unmatched_type (el : OsmElement) :
    (∀ a, tagsGet el.tags "amenity" = some a → AMENITY_MAPPING.lookup a = none →
      _parse_element el = none) ∧
    (tagsGet el.tags "amenity" = none → ∀ s, tagsGet el.tags "shop" = some s →
      SHOP_MAPPING.lookup s = none → _parse_element el = none) ∧
    (tagsGet el.tags "amenity" = none → tagsGet el.tags "shop" = none →
      ∀ o, tagsGet el.tags "office" = some o → OFFICE_MAPPING.lookup o = none →
      _parse_element el = none) ∧
    (tagsGet el.tags "amenity" = none → tagsGet el.tags "shop" = none →
      tagsGet el.tags "office" = none → _parse_element el = none) := by
  have main : lookupFacilityInfo el.tags = none → _parse_element el = none := by
    intro hlk
    obtain ⟨ty, oid, lat, lon, clat, clon, tags⟩ := el
    unfold _parse_element
    dsimp only at hlk ⊢
    rcases lat with _ | la <;> rcases lon with _ | lo <;>
      rcases clat with _ | ca <;> rcases clon with _ | co <;>
      split <;> try rfl
    all_goals try (split <;> try rfl)
    all_goals simp_all
  refine ⟨?_, ?_, ?_, ?_⟩
  · intro a ha hla
    exact main (by simp [lookupFacilityInfo, ha, hla])
  · intro ha s hs hls
    exact main (by simp [lookupFacilityInfo, ha, hs, hls])
  · intro ha hs o ho hlo
    exact main (by simp [lookupFacilityInfo, ha, hs, ho, hlo])
  · intro ha hs ho
    exact main (by simp [lookupFacilityInfo, ha, hs, ho])

/-- Witness for the amended C9 at the barangay-named element with the
unmatched amenity type `public_bath`. -/
theorem parse_element_unmatched_type_witness :
    tagsGet [("amenity", "public_bath"), ("name", "Barangay Hall of Daro")] "amenity" =
      some "public_bath" ∧
    AMENITY_MAPPING.lookup "public_bath" = none ∧
    _parse_element ⟨"node", 7, some 9, some 123, none, none,
      [("amenity", "public_bath"), ("name", "Barangay Hall of Daro")]⟩ = none :=
  ⟨rfl, rfl,
    (parse_element_unmatched_type ⟨"node", 7, some 9, some 123, none, none,
      [("amenity", "public_bath"), ("name", "Barangay Hall of Daro")]⟩).1
      "public_bath" rfl rfl⟩

/-- Witness for C3 at `(VHS, HS, LS)` and at the all-absent triple. -/
theorem weighted_severity_model_witness :
    HLevel.HS ≠ HLevel.DF ∧
    riskBaseScore HLevel.VHS HLevel.HS HLevel.LS =
      spec_weighted_risk_score HLevel.VHS HLevel.HS HLevel.LS ∧
    ¬ HLevel.nodata.present ∧
    (calculate_risk_score HLevel.nodata HLevel.nodata HLevel.nodata).score = 0 ∧
    (calculate_risk_score HLevel.nodata HLevel.nodata HLevel.nodata).category = "LOW RISK" := by
  have hnp : ¬ HLevel.nodata.present := by simp [HLevel.present]
  exact ⟨by simp, weighted_severity_model.2.1 HLevel.VHS HLevel.HS HLevel.LS (by simp), hnp,
    (weighted_severity_model.2.2 HLevel.nodata HLevel.nodata HLevel.nodata hnp hnp hnp).1,
    (weighted_severity_model.2.2 HLevel.nodata HLevel.nodata HLevel.nodata hnp hnp hnp).2⟩

/-- Witness for C4 at `('HS','HS','HS')`. -/
theorem combined_hazard_penalty_witness :
    HLevel.HS ≠ HLevel.DF ∧ 2 ≤ highHazardsCount HLevel.HS HLevel.HS HLevel.HS ∧
    (calculate_risk_score HLevel.HS HLevel.HS HLevel.HS).score =
      round1 (min 100 (riskBaseScore HLevel.HS HLevel.HS HLevel.HS * 1.25)) :=
  ⟨by simp, by simp [highHazardsCount],
    combined_hazard_penalty.1 HLevel.HS HLevel.HS HLevel.HS (by simp)
      (by simp [highHazardsCount])⟩

/-- Witness for C6 at a moderate-risk assessment (score 40) and an empty
facility summary: the formula yields `(100−40)·0.6 = 36`. -/
theorem suitability_formula_witness :
    (RiskAssessment.mk 40 40 "MODERATE RISK" "m" "c" "i" "CAUTION" "r").safety_level ≠
      "EVACUATION REQUIRED" ∧
    (calculate_suitability_score (RiskAssessment.mk 40 40 "MODERATE RISK" "m" "c" "i" "CAUTION" "r")
      ⟨none, none, none, ⟨0, 0, 0, 0, 0, 0⟩⟩).score = 36 := by
  have h := suitability_formula
    (RiskAssessment.mk 40 40 "MODERATE RISK" "m" "c" "i" "CAUTION" "r")
    ⟨none, none, none, ⟨0, 0, 0, 0, 0, 0⟩⟩ (by simp)
  refine ⟨by simp, ?_⟩
  rw [h]
  norm_num [infrastructureScore, min_def, round1, round_eq]

end HazardMaps
